import Mathlib

/-
  Verification of the popup/overlay system and the settings (preference)
  store of the "error-rank-hunter" static-site scripts.

  The JavaScript source consists of two modules:
    * js/popup-system.js — SequencePopups, SystemPopups, DocumentViewer,
      ImageGallery, plus a shared backdrop;
    * settings.js — theme and font-size persistence.

  The embedding below translates the stateful code into explicit state
  passing.  DOM state relevant to the claims (root attributes, overlay
  containers, rendered popups, nav-button disabled flags) is carried in the
  state records; localStorage is carried as two optional string fields;
  console.warn calls are logged into a `warnings` list.  Fixed-duration
  timers in the source only sequence DOM removal after CSS transitions, so
  each timer body is inlined at its scheduling point (the single-threaded
  event loop runs it before the next user event of interest).
-/

set_option autoImplicit false

namespace StorySettings

/-- Model of the JavaScript idiom `x || dflt` applied to a nullable string:
`null`/absent and the empty string are falsy and yield the default. -/
def jsOrDefault (v : Option String) (dflt : String) : String :=
  match v with
  | none => dflt
  | some s => if s = "" then dflt else s

/-- Model of JavaScript `Array.prototype.indexOf`: the index of the first
occurrence, or -1 when absent. -/
def jsIndexOf (l : List String) (x : String) : Int :=
  match l.findIdx? (fun y => y = x) with
  | some i => (i : Int)
  | none => -1

/-- Valid font sizes, in step order (settings.js `FONT_SIZES`). -/
def FONT_SIZES : List String := ["small", "normal", "large", "x-large"]

/-- Valid themes (settings.js `THEMES`). -/
def THEMES : List String := ["light", "dark"]

def DEFAULT_THEME : String := "light"

def DEFAULT_FONT_SIZE : String := "normal"

/-- State touched by settings.js: the two `data-` attributes of the
document root, the two localStorage keys, and the console-warning log. -/
structure SettingsState where
  dataTheme : Option String
  dataFontSize : Option String
  storageTheme : Option String
  storageFontSize : Option String
  warnings : List String
deriving DecidableEq

/-- settings.js `setTheme(theme, save)`: validate against `THEMES`; invalid
values only log a warning; valid values set the root attribute and, when
`save` is true, persist to storage. -/
def setTheme (theme : String) (save : Bool) (s : SettingsState) : SettingsState :=
  if theme ∈ THEMES then
    let s1 := { s with dataTheme := some theme }
    if save then { s1 with storageTheme := some theme } else s1
  else
    { s with warnings := s.warnings ++ ["Invalid theme: " ++ theme] }

/-- settings.js `getTheme()`: the root attribute, or the default when the
attribute is absent (JS `getAttribute(..) || DEFAULT_THEME`). -/
def getTheme (s : SettingsState) : String :=
  jsOrDefault s.dataTheme DEFAULT_THEME

/-- settings.js `toggleTheme()`: read the current attribute (default when
absent), switch dark → light and anything else → dark, and apply with
persistence. -/
def toggleTheme (s : SettingsState) : SettingsState :=
  let currentTheme := jsOrDefault s.dataTheme DEFAULT_THEME
  let newTheme := if currentTheme = "dark" then "light" else "dark"
  setTheme newTheme true s

/-- settings.js `setFontSize(size, save)`: same shape as `setTheme`. -/
def setFontSize (size : String) (save : Bool) (s : SettingsState) : SettingsState :=
  if size ∈ FONT_SIZES then
    let s1 := { s with dataFontSize := some size }
    if save then { s1 with storageFontSize := some size } else s1
  else
    { s with warnings := s.warnings ++ ["Invalid font size: " ++ size] }

/-- settings.js `getFontSize()`. -/
def getFontSize (s : SettingsState) : String :=
  jsOrDefault s.dataFontSize DEFAULT_FONT_SIZE

/-- settings.js `increaseFontSize()`: step one position up `FONT_SIZES`
from the current index, doing nothing at the top. -/
def increaseFontSize (s : SettingsState) : SettingsState :=
  if jsIndexOf FONT_SIZES (getFontSize s) < (FONT_SIZES.length : Int) - 1 then
    setFontSize (FONT_SIZES.getD (jsIndexOf FONT_SIZES (getFontSize s) + 1).toNat "") true s
  else s

/-- settings.js `decreaseFontSize()`: step one position down, doing nothing
at the bottom. -/
def decreaseFontSize (s : SettingsState) : SettingsState :=
  if 0 < jsIndexOf FONT_SIZES (getFontSize s) then
    setFontSize (FONT_SIZES.getD (jsIndexOf FONT_SIZES (getFontSize s) - 1).toNat "") true s
  else s

/-- First half of settings.js `initSettings()`: apply the persisted theme
when present and valid, else fall back to the system dark-mode preference
(`save = false` in both cases). -/
def applySavedTheme (prefersDark : Bool) (s : SettingsState) : SettingsState :=
  match s.storageTheme with
  | some t =>
      if t ∈ THEMES then setTheme t false s
      else setTheme (if prefersDark then "dark" else "light") false s
  | none => setTheme (if prefersDark then "dark" else "light") false s

/-- Second half of settings.js `initSettings()`: apply the persisted font
size when present and valid, else the fixed default (`save = false`). -/
def applySavedFontSize (s : SettingsState) : SettingsState :=
  match s.storageFontSize with
  | some v =>
      if v ∈ FONT_SIZES then setFontSize v false s
      else setFontSize DEFAULT_FONT_SIZE false s
  | none => setFontSize DEFAULT_FONT_SIZE false s

/-- settings.js `initSettings()`: theme first, then font size. -/
def initSettings (prefersDark : Bool) (s : SettingsState) : SettingsState :=
  applySavedFontSize (applySavedTheme prefersDark s)

end StorySettings

namespace SequencePopups

/-- A sequence item (popup-system.js scenario A): `{ type: 'image'|'html',
content, alt? }`. -/
inductive SeqItemType where
  | image
  | html
deriving DecidableEq

structure SeqItem where
  itemType : SeqItemType
  content : String
deriving DecidableEq

/-- State of the `SequencePopups` object together with the DOM facts the
claims are about: the indices rendered so far (in render order), how many
times the completion callback has run, and whether a callback was
supplied. -/
structure SeqState where
  items : List SeqItem
  currentIndex : Nat
  isActive : Bool
  containerExists : Bool
  backdropVisible : Bool
  renders : List Nat
  onCompleteCalls : Nat
  hasOnComplete : Bool
deriving DecidableEq

/-- popup-system.js `SequencePopups.complete()`: deactivate, hide the
backdrop, and (in the timer body) remove the container and invoke the
completion callback when one was supplied. -/
def complete (s : SeqState) : SeqState :=
  { s with
      isActive := false
      backdropVisible := false
      containerExists := false
      onCompleteCalls := s.onCompleteCalls + (if s.hasOnComplete then 1 else 0) }

/-- popup-system.js `SequencePopups.showCurrentPopup()`: render the item at
`currentIndex`, or complete when `items[currentIndex]` is undefined. -/
def showCurrentPopup (s : SeqState) : SeqState :=
  match s.items.get? s.currentIndex with
  | none => complete s
  | some _ => { s with renders := s.renders ++ [s.currentIndex] }

/-- popup-system.js `SequencePopups.init(items, onComplete)`: reset the
index, mark active, create the container, show the backdrop, render the
current item, bind listeners. -/
def init (items : List SeqItem) (hasOnComplete : Bool) : SeqState :=
  showCurrentPopup
    { items := items
      currentIndex := 0
      isActive := true
      containerExists := true
      backdropVisible := true
      renders := []
      onCompleteCalls := 0
      hasOnComplete := hasOnComplete }

/-- popup-system.js `SequencePopups.next()` (timer body inlined):
increment the index, then render it when in bounds, else complete. -/
def next (s : SeqState) : SeqState :=
  let s1 := { s with currentIndex := s.currentIndex + 1 }
  if s1.currentIndex < s1.items.length then showCurrentPopup s1 else complete s1

/-- The global click/key handler bound by `bindEvents()`: advance only
while the sequence is active. -/
def advance (s : SeqState) : SeqState :=
  if s.isActive then next s else s

/-- Apply `advance` a given number of times (k user inputs). -/
def advanceN : Nat → SeqState → SeqState
  | 0, s => s
  | k + 1, s => advance (advanceN k s)

end SequencePopups

namespace SystemPopups

/-- A queued popup descriptor (popup-system.js scenario B), built from a
trigger marker's data attributes. -/
structure PopupData where
  image : Option String
  html : Option String
  glitch : Bool
deriving DecidableEq

/-- State of the `SystemPopups` object plus the DOM facts the claims are
about: `consumed` holds the markers whose `data-popup-triggered` flag is
set, `shown` logs every descriptor presented (in presentation order), and
`visible` counts popup elements currently attached and visible. -/
structure SysState where
  consumed : List Nat
  queue : List PopupData
  isShowingPopup : Bool
  currentPopup : Option PopupData
  shown : List PopupData
  visible : Nat
deriving DecidableEq

/-- The state at `init()`: no marker consumed, nothing queued or showing. -/
def initState : SysState :=
  { consumed := []
    queue := []
    isShowingPopup := false
    currentPopup := none
    shown := []
    visible := 0 }

/-- popup-system.js `SystemPopups.showNextPopup()`: when the queue is
empty, stop showing; otherwise shift the head, build and attach its popup
element, and mark it visible. -/
def showNextPopup (s : SysState) : SysState :=
  match s.queue with
  | [] => { s with isShowingPopup := false }
  | d :: rest =>
      { s with
          isShowingPopup := true
          queue := rest
          currentPopup := some d
          shown := s.shown ++ [d]
          visible := s.visible + 1 }

/-- popup-system.js `SystemPopups.closeCurrentPopup()` (both timer bodies
inlined): remove the current popup element, then show the next queued
one. -/
def closeCurrentPopup (s : SysState) : SysState :=
  match s.currentPopup with
  | none => s
  | some _ => showNextPopup { s with currentPopup := none, visible := s.visible - 1 }

/-- The body of `handleIntersection` for one intersecting marker `m` (with
`env` giving the descriptor built from each marker's data attributes): a
marker whose `data-popup-triggered` flag is set is ignored; otherwise the
flag is set, the descriptor is enqueued, and presentation starts when
nothing is currently showing. -/
def handleEntry (env : Nat → PopupData) (m : Nat) (s : SysState) : SysState :=
  if m ∈ s.consumed then s
  else
    let s1 := { s with consumed := m :: s.consumed, queue := s.queue ++ [env m] }
    if s1.isShowingPopup then s1 else showNextPopup s1

/-- popup-system.js `SystemPopups.handleIntersection(entries)`: process
each intersecting marker in order. -/
def handleIntersection (env : Nat → PopupData) (s : SysState) (entries : List Nat) : SysState :=
  entries.foldl (fun st m => handleEntry env m st) s

/-- The document click/key handler bound by `bindEvents()`: dismiss only
while a popup is showing. -/
def dismiss (s : SysState) : SysState :=
  if s.isShowingPopup && s.currentPopup.isSome then closeCurrentPopup s else s

/-- Apply `dismiss` a given number of times (k user dismissals). -/
def dismissN : Nat → SysState → SysState
  | 0, s => s
  | k + 1, s => dismissN k (dismiss s)

end SystemPopups

namespace ImageGallery

/-- Argument object of `ImageGallery.open`: `{ images, title }` with the
title optional. -/
structure GalleryOptions where
  images : List String
  title : Option String
deriving DecidableEq

/-- State of the `ImageGallery` object plus the DOM facts the claims are
about: the displayed image, the "Page X of N" counter, the active dot
index, and the disabled flags of the two nav buttons. -/
structure GalleryState where
  isOpen : Bool
  currentPage : Int
  images : List String
  title : String
  containerExists : Bool
  displayedImage : String
  pageLabel : Int
  activeDot : Int
  prevDisabled : Bool
  nextDisabled : Bool
  bodyOverflowHidden : Bool
  warnings : List String
deriving DecidableEq

/-- popup-system.js `ImageGallery.updateNavState()`: prev is disabled
exactly on the first page, next exactly on the last. -/
def updateNavState (s : GalleryState) : GalleryState :=
  { s with
      prevDisabled := s.currentPage == 0
      nextDisabled := s.currentPage == (s.images.length : Int) - 1 }

/-- popup-system.js `ImageGallery.createGallery()`: build the container
showing `images[0]`, the "Page 1 of N" header, dot 0 active, then run
`updateNavState`. -/
def createGallery (s : GalleryState) : GalleryState :=
  updateNavState
    { s with
        containerExists := true
        displayedImage := s.images.getD 0 ""
        pageLabel := 1
        activeDot := 0 }

/-- popup-system.js `ImageGallery.open(options)`: a no-op when already
open; stages `images`, `title`, `currentPage` from the options, then
rejects an empty image list with a console warning; otherwise builds the
gallery, marks it open, and suppresses page scroll. -/
def openGallery (options : GalleryOptions) (s : GalleryState) : GalleryState :=
  if s.isOpen then s
  else
    let s1 :=
      { s with
          images := options.images
          title := StorySettings.jsOrDefault options.title "Gallery"
          currentPage := 0 }
    if s1.images.isEmpty then
      { s1 with warnings := s1.warnings ++ ["ImageGallery: No images provided"] }
    else
      let s2 := createGallery s1
      { s2 with isOpen := true, bodyOverflowHidden := true }

/-- popup-system.js `ImageGallery.goToPage(pageIndex)`: a no-op when the
index is out of range; otherwise update the image, the page counter, the
active dot, and the nav-button state. -/
def goToPage (pageIndex : Int) (s : GalleryState) : GalleryState :=
  if pageIndex < 0 ∨ (s.images.length : Int) ≤ pageIndex then s
  else
    updateNavState
      { s with
          currentPage := pageIndex
          displayedImage := s.images.getD pageIndex.toNat ""
          pageLabel := pageIndex + 1
          activeDot := pageIndex }

/-- popup-system.js `ImageGallery.prevPage()`. -/
def prevPage (s : GalleryState) : GalleryState :=
  if 0 < s.currentPage then goToPage (s.currentPage - 1) s else s

/-- popup-system.js `ImageGallery.nextPage()`. -/
def nextPage (s : GalleryState) : GalleryState :=
  if s.currentPage < (s.images.length : Int) - 1 then goToPage (s.currentPage + 1) s else s

end ImageGallery

-- ============================================================
-- Helper lemmas (shared; not claim theorems)
-- ============================================================

namespace StorySettings

lemma setTheme_of_mem (s : SettingsState) (t : String) (save : Bool) (ht : t ∈ THEMES) :
    setTheme t save s =
      (if save then { s with dataTheme := some t, storageTheme := some t }
       else { s with dataTheme := some t }) := by
  unfold setTheme
  rw [if_pos ht]

lemma setTheme_of_not_mem (s : SettingsState) (t : String) (save : Bool) (ht : t ∉ THEMES) :
    setTheme t save s = { s with warnings := s.warnings ++ ["Invalid theme: " ++ t] } := by
  unfold setTheme
  rw [if_neg ht]

lemma setFontSize_of_mem (s : SettingsState) (v : String) (save : Bool) (hv : v ∈ FONT_SIZES) :
    setFontSize v save s =
      (if save then { s with dataFontSize := some v, storageFontSize := some v }
       else { s with dataFontSize := some v }) := by
  unfold setFontSize
  rw [if_pos hv]

lemma setFontSize_of_not_mem (s : SettingsState) (v : String) (save : Bool) (hv : v ∉ FONT_SIZES) :
    setFontSize v save s = { s with warnings := s.warnings ++ ["Invalid font size: " ++ v] } := by
  unfold setFontSize
  rw [if_neg hv]

lemma mem_THEMES_ne_empty {t : String} (ht : t ∈ THEMES) : t ≠ "" := by
  fin_cases ht <;> decide

lemma mem_FONT_SIZES_ne_empty {v : String} (hv : v ∈ FONT_SIZES) : v ≠ "" := by
  fin_cases hv <;> decide

lemma getTheme_setTheme_of_mem (s : SettingsState) (t : String) (save : Bool) (ht : t ∈ THEMES) :
    getTheme (setTheme t save s) = t := by
  rw [setTheme_of_mem s t save ht]
  cases save <;> simp [getTheme, jsOrDefault, mem_THEMES_ne_empty ht]

lemma getFontSize_setFontSize_of_mem (s : SettingsState) (v : String) (save : Bool)
    (hv : v ∈ FONT_SIZES) : getFontSize (setFontSize v save s) = v := by
  rw [setFontSize_of_mem s v save hv]
  cases save <;> simp [getFontSize, jsOrDefault, mem_FONT_SIZES_ne_empty hv]

lemma increase_step (s : SettingsState) (v w : String) (h : getFontSize s = v)
    (hc : jsIndexOf FONT_SIZES v < (FONT_SIZES.length : Int) - 1)
    (hw : FONT_SIZES.getD (jsIndexOf FONT_SIZES v + 1).toNat "" = w) :
    increaseFontSize s = setFontSize w true s := by
  unfold increaseFontSize
  rw [h, if_pos hc, hw]

lemma increase_noop (s : SettingsState) (v : String) (h : getFontSize s = v)
    (hc : ¬ jsIndexOf FONT_SIZES v < (FONT_SIZES.length : Int) - 1) :
    increaseFontSize s = s := by
  unfold increaseFontSize
  rw [h, if_neg hc]

lemma decrease_step (s : SettingsState) (v w : String) (h : getFontSize s = v)
    (hc : 0 < jsIndexOf FONT_SIZES v)
    (hw : FONT_SIZES.getD (jsIndexOf FONT_SIZES v - 1).toNat "" = w) :
    decreaseFontSize s = setFontSize w true s := by
  unfold decreaseFontSize
  rw [h, if_pos hc, hw]

lemma decrease_noop (s : SettingsState) (v : String) (h : getFontSize s = v)
    (hc : ¬ 0 < jsIndexOf FONT_SIZES v) :
    decreaseFontSize s = s := by
  unfold decreaseFontSize
  rw [h, if_neg hc]

end StorySettings

-- ============================================================
-- Claim theorems: preference store
-- ============================================================

open StorySettings in
/-- C4: Preference Store round-trip — for every theme in `THEMES` and every
font size in `FONT_SIZES`, calling the setter and then the getter returns
that same value, and the document-root attribute (`data-theme` /
`data-font-size`) equals that value. -/
theorem settings_roundtrip (s : SettingsState) (t f : String)
    (ht : t ∈ THEMES) (hf : f ∈ FONT_SIZES) :
    getTheme (setTheme t true s) = t ∧
    (setTheme t true s).dataTheme = some t ∧
    getFontSize (setFontSize f true s) = f ∧
    (setFontSize f true s).dataFontSize = some f := by
  refine ⟨getTheme_setTheme_of_mem s t true ht, ?_,
          getFontSize_setFontSize_of_mem s f true hf, ?_⟩
  · rw [setTheme_of_mem s t true ht]; rfl
  · rw [setFontSize_of_mem s f true hf]; rfl

open StorySettings in
/-- Witness for C4 at the concrete values "dark" and "large". -/
theorem settings_roundtrip_witness :
    ("dark" ∈ THEMES ∧ "large" ∈ FONT_SIZES) ∧
    (getTheme (setTheme "dark" true ⟨none, none, none, none, []⟩) = "dark" ∧
     (setTheme "dark" true ⟨none, none, none, none, []⟩).dataTheme = some "dark" ∧
     getFontSize (setFontSize "large" true ⟨none, none, none, none, []⟩) = "large" ∧
     (setFontSize "large" true ⟨none, none, none, none, []⟩).dataFontSize = some "large") :=
  ⟨⟨by decide, by decide⟩,
   settings_roundtrip ⟨none, none, none, none, []⟩ "dark" "large" (by decide) (by decide)⟩

open StorySettings in
/-- C5: Preference Store invalid-input rejection — for a theme outside
`THEMES` and a font size outside `FONT_SIZES`, the setters leave the getter
result, the root attributes and the persisted storage values unchanged,
append a console warning, and (being total functions) throw no error. -/
theorem settings_invalid_rejected (s : SettingsState) (v w : String)
    (hv : v ∉ THEMES) (hw : w ∉ FONT_SIZES) :
    getTheme (setTheme v true s) = getTheme s ∧
    (setTheme v true s).dataTheme = s.dataTheme ∧
    (setTheme v true s).storageTheme = s.storageTheme ∧
    (setTheme v true s).warnings = s.warnings ++ ["Invalid theme: " ++ v] ∧
    getFontSize (setFontSize w true s) = getFontSize s ∧
    (setFontSize w true s).dataFontSize = s.dataFontSize ∧
    (setFontSize w true s).storageFontSize = s.storageFontSize ∧
    (setFontSize w true s).warnings = s.warnings ++ ["Invalid font size: " ++ w] := by
  rw [setTheme_of_not_mem s v true hv, setFontSize_of_not_mem s w true hw]
  exact ⟨rfl, rfl, rfl, rfl, rfl, rfl, rfl, rfl⟩

open StorySettings in
/-- Witness for C5 at the invalid values "purple" and "huge". -/
theorem settings_invalid_rejected_witness :
    ("purple" ∉ THEMES ∧ "huge" ∉ FONT_SIZES) ∧
    (getTheme (setTheme "purple" true ⟨some "dark", some "large", some "dark", some "large", []⟩) =
      getTheme ⟨some "dark", some "large", some "dark", some "large", []⟩ ∧
     (setTheme "purple" true ⟨some "dark", some "large", some "dark", some "large", []⟩).dataTheme =
      some "dark" ∧
     (setTheme "purple" true ⟨some "dark", some "large", some "dark", some "large", []⟩).storageTheme =
      some "dark" ∧
     (setTheme "purple" true ⟨some "dark", some "large", some "dark", some "large", []⟩).warnings =
      [] ++ ["Invalid theme: " ++ "purple"] ∧
     getFontSize (setFontSize "huge" true ⟨some "dark", some "large", some "dark", some "large", []⟩) =
      getFontSize ⟨some "dark", some "large", some "dark", some "large", []⟩ ∧
     (setFontSize "huge" true ⟨some "dark", some "large", some "dark", some "large", []⟩).dataFontSize =
      some "large" ∧
     (setFontSize "huge" true ⟨some "dark", some "large", some "dark", some "large", []⟩).storageFontSize =
      some "large" ∧
     (setFontSize "huge" true ⟨some "dark", some "large", some "dark", some "large", []⟩).warnings =
      [] ++ ["Invalid font size: " ++ "huge"]) :=
  ⟨⟨by decide, by decide⟩,
   settings_invalid_rejected ⟨some "dark", some "large", some "dark", some "large", []⟩
     "purple" "huge" (by decide) (by decide)⟩

open StorySettings in
/-- C6: Font-size stepping — from every current font size in the
enumeration, `increaseFontSize` / `decreaseFontSize` move exactly one
position up/down the ordered list `[small, normal, large, x-large]`,
clamped at the ends with no wraparound; the result is always a member of
the enumeration, and a call at either boundary leaves the state unchanged
(so repeated boundary calls are no-ops). -/
theorem settings_fontsize_stepping (s : SettingsState)
    (hmem : getFontSize s ∈ FONT_SIZES) :
    getFontSize (increaseFontSize s) ∈ FONT_SIZES ∧
    getFontSize (decreaseFontSize s) ∈ FONT_SIZES ∧
    (getFontSize s = "small" → getFontSize (increaseFontSize s) = "normal") ∧
    (getFontSize s = "normal" → getFontSize (increaseFontSize s) = "large") ∧
    (getFontSize s = "large" → getFontSize (increaseFontSize s) = "x-large") ∧
    (getFontSize s = "x-large" → increaseFontSize s = s) ∧
    (getFontSize s = "small" → decreaseFontSize s = s) ∧
    (getFontSize s = "normal" → getFontSize (decreaseFontSize s) = "small") ∧
    (getFontSize s = "large" → getFontSize (decreaseFontSize s) = "normal") ∧
    (getFontSize s = "x-large" → getFontSize (decreaseFontSize s) = "large") := by
  have hFS : getFontSize s = "small" ∨ getFontSize s = "normal" ∨
      getFontSize s = "large" ∨ getFontSize s = "x-large" := by
    simpa [FONT_SIZES] using hmem
  rcases hFS with h | h | h | h
  · have hi : increaseFontSize s = setFontSize "normal" true s :=
      increase_step s "small" "normal" h (by decide) (by decide)
    have hd : decreaseFontSize s = s := decrease_noop s "small" h (by decide)
    have hgi : getFontSize (increaseFontSize s) = "normal" := by
      rw [hi]; exact getFontSize_setFontSize_of_mem s "normal" true (by decide)
    refine ⟨by rw [hgi]; decide, by rw [hd, h]; decide, fun _ => hgi, ?_, ?_, ?_,
            fun _ => hd, ?_, ?_, ?_⟩ <;>
      intro h' <;> rw [h] at h' <;> exact absurd h' (by decide)
  · have hi : increaseFontSize s = setFontSize "large" true s :=
      increase_step s "normal" "large" h (by decide) (by decide)
    have hd : decreaseFontSize s = setFontSize "small" true s :=
      decrease_step s "normal" "small" h (by decide) (by decide)
    have hgi : getFontSize (increaseFontSize s) = "large" := by
      rw [hi]; exact getFontSize_setFontSize_of_mem s "large" true (by decide)
    have hgd : getFontSize (decreaseFontSize s) = "small" := by
      rw [hd]; exact getFontSize_setFontSize_of_mem s "small" true (by decide)
    refine ⟨by rw [hgi]; decide, by rw [hgd]; decide, ?_, fun _ => hgi, ?_, ?_,
            ?_, fun _ => hgd, ?_, ?_⟩ <;>
      intro h' <;> rw [h] at h' <;> exact absurd h' (by decide)
  · have hi : increaseFontSize s = setFontSize "x-large" true s :=
      increase_step s "large" "x-large" h (by decide) (by decide)
    have hd : decreaseFontSize s = setFontSize "normal" true s :=
      decrease_step s "large" "normal" h (by decide) (by decide)
    have hgi : getFontSize (increaseFontSize s) = "x-large" := by
      rw [hi]; exact getFontSize_setFontSize_of_mem s "x-large" true (by decide)
    have hgd : getFontSize (decreaseFontSize s) = "normal" := by
      rw [hd]; exact getFontSize_setFontSize_of_mem s "normal" true (by decide)
    refine ⟨by rw [hgi]; decide, by rw [hgd]; decide, ?_, ?_, fun _ => hgi, ?_,
            ?_, ?_, fun _ => hgd, ?_⟩ <;>
      intro h' <;> rw [h] at h' <;> exact absurd h' (by decide)
  · have hi : increaseFontSize s = s := increase_noop s "x-large" h (by decide)
    have hd : decreaseFontSize s = setFontSize "large" true s :=
      decrease_step s "x-large" "large" h (by decide) (by decide)
    have hgd : getFontSize (decreaseFontSize s) = "large" := by
      rw [hd]; exact getFontSize_setFontSize_of_mem s "large" true (by decide)
    refine ⟨by rw [hi, h]; decide, by rw [hgd]; decide, ?_, ?_, ?_, fun _ => hi,
            ?_, ?_, ?_, fun _ => hgd⟩ <;>
      intro h' <;> rw [h] at h' <;> exact absurd h' (by decide)

open StorySettings in
/-- Witness for C6 at a state whose current font size is "normal". -/
theorem settings_fontsize_stepping_witness :
    getFontSize ⟨none, some "normal", none, none, []⟩ ∈ FONT_SIZES ∧
    getFontSize (increaseFontSize ⟨none, some "normal", none, none, []⟩) ∈ FONT_SIZES :=
  ⟨by decide,
   (settings_fontsize_stepping ⟨none, some "normal", none, none, []⟩ (by decide)).1⟩

open StorySettings in
/-- C7: Preference Store initialization fallback — when the persisted theme
is absent or invalid and the system preference reports dark, initialization
applies theme dark (`getTheme` returns "dark") without writing to storage;
likewise an absent persisted font size falls back to the default "normal"
without writing to storage. -/
theorem settings_init_fallback (s : SettingsState)
    (hth : ∀ t, s.storageTheme = some t → t ∉ THEMES)
    (hfs : s.storageFontSize = none) :
    getTheme (initSettings true s) = "dark" ∧
    getFontSize (initSettings true s) = "normal" ∧
    (initSettings true s).storageTheme = s.storageTheme ∧
    (initSettings true s).storageFontSize = none := by
  have e2 : applySavedTheme true s = setTheme "dark" false s := by
    unfold applySavedTheme
    cases hst : s.storageTheme with
    | none => rfl
    | some t =>
        have ht : t ∉ THEMES := hth t hst
        show (if t ∈ THEMES then setTheme t false s
              else setTheme (if (true : Bool) then "dark" else "light") false s) =
          setTheme "dark" false s
        rw [if_neg ht]
        rfl
  have e3 : applySavedFontSize (setTheme "dark" false s) =
      setFontSize "normal" false (setTheme "dark" false s) := by
    unfold applySavedFontSize
    have hsf : (setTheme "dark" false s).storageFontSize = none := hfs
    rw [hsf]
    rfl
  have e1 : initSettings true s = setFontSize "normal" false (setTheme "dark" false s) := by
    unfold initSettings
    rw [e2, e3]
  rw [e1]
  exact ⟨rfl, rfl, rfl, hfs⟩

open StorySettings in
/-- Witness for C7 at a state with an invalid persisted theme and no
persisted font size. -/
theorem settings_init_fallback_witness :
    getTheme (initSettings true ⟨none, none, some "sepia", none, []⟩) = "dark" ∧
    (initSettings true ⟨none, none, some "sepia", none, []⟩).storageTheme = some "sepia" :=
  ⟨(settings_init_fallback ⟨none, none, some "sepia", none, []⟩
      (fun t ht => by cases ht; decide) rfl).1,
   (settings_init_fallback ⟨none, none, some "sepia", none, []⟩
      (fun t ht => by cases ht; decide) rfl).2.2.1⟩

open StorySettings in
/-- C9: toggleTheme totality and involution — from every document state,
`toggleTheme` yields a theme in `THEMES`; an unset root attribute (treated
as the default "light") and an invalid attribute both toggle to "dark";
and from any state whose current theme is valid, toggling twice restores
`getTheme` to its original value. -/
theorem settings_toggle_total_involutive (s : SettingsState) :
    getTheme (toggleTheme s) ∈ THEMES ∧
    (s.dataTheme = none → getTheme (toggleTheme s) = "dark") ∧
    ((∀ v, s.dataTheme = some v → v ∉ THEMES) → getTheme (toggleTheme s) = "dark") ∧
    (getTheme s ∈ THEMES → getTheme (toggleTheme (toggleTheme s)) = getTheme s) := by
  have etog : ∀ s' : SettingsState, toggleTheme s' =
      setTheme (if jsOrDefault s'.dataTheme DEFAULT_THEME = "dark" then "light" else "dark")
        true s' := fun _ => rfl
  refine ⟨?_, ?_, ?_, ?_⟩
  · by_cases hc : jsOrDefault s.dataTheme DEFAULT_THEME = "dark"
    · rw [etog s, if_pos hc, getTheme_setTheme_of_mem s "light" true (by decide)]; decide
    · rw [etog s, if_neg hc, getTheme_setTheme_of_mem s "dark" true (by decide)]; decide
  · intro hn
    have hc : jsOrDefault s.dataTheme DEFAULT_THEME = "light" := by
      rw [hn]; rfl
    rw [etog s, hc, if_neg (by decide)]
    exact getTheme_setTheme_of_mem s "dark" true (by decide)
  · intro hinv
    cases hv : s.dataTheme with
    | none =>
        have hc : jsOrDefault s.dataTheme DEFAULT_THEME = "light" := by rw [hv]; rfl
        rw [etog s, hc, if_neg (by decide)]
        exact getTheme_setTheme_of_mem s "dark" true (by decide)
    | some v =>
        have hvmem : v ∉ THEMES := hinv v hv
        have hvd : v ≠ "dark" := fun e => hvmem (e ▸ (by decide : "dark" ∈ THEMES))
        have hc : jsOrDefault s.dataTheme DEFAULT_THEME ≠ "dark" := by
          rw [hv]
          show (if v = "" then DEFAULT_THEME else v) ≠ "dark"
          by_cases he : v = ""
          · rw [if_pos he]; decide
          · rw [if_neg he]; exact hvd
        rw [etog s, if_neg hc]
        exact getTheme_setTheme_of_mem s "dark" true (by decide)
  · intro hval
    have hFS : getTheme s = "light" ∨ getTheme s = "dark" := by
      simpa [THEMES] using hval
    rcases hFS with h | h
    · have hc : jsOrDefault s.dataTheme DEFAULT_THEME = "light" := h
      have e1 : toggleTheme s = setTheme "dark" true s := by
        rw [etog s, hc, if_neg (by decide)]
      rw [e1, setTheme_of_mem s "dark" true (by decide), h]
      rfl
    · have hc : jsOrDefault s.dataTheme DEFAULT_THEME = "dark" := h
      have e1 : toggleTheme s = setTheme "light" true s := by
        rw [etog s, hc, if_pos rfl]
      rw [e1, setTheme_of_mem s "light" true (by decide), h]
      rfl

open StorySettings in
/-- Witness for C9 at a state with an unset root attribute, and the
involution at a state whose theme is "dark". -/
theorem settings_toggle_total_involutive_witness :
    getTheme (toggleTheme ⟨none, none, none, none, []⟩) ∈ THEMES ∧
    getTheme (toggleTheme ⟨none, none, none, none, []⟩) = "dark" ∧
    getTheme (toggleTheme (toggleTheme ⟨some "dark", none, none, none, []⟩)) =
      getTheme ⟨some "dark", none, none, none, []⟩ :=
  ⟨(settings_toggle_total_involutive ⟨none, none, none, none, []⟩).1,
   (settings_toggle_total_involutive ⟨none, none, none, none, []⟩).2.1 rfl,
   (settings_toggle_total_involutive ⟨some "dark", none, none, none, []⟩).2.2.2 (by decide)⟩

-- ============================================================
-- Helper lemmas and claim theorems: image gallery
-- ============================================================

namespace ImageGallery

lemma goToPage_out (s : GalleryState) (i : Int)
    (hi : i < 0 ∨ (s.images.length : Int) ≤ i) : goToPage i s = s := by
  unfold goToPage
  rw [if_pos hi]

lemma goToPage_in (s : GalleryState) (i : Int)
    (hi : ¬ (i < 0 ∨ (s.images.length : Int) ≤ i)) :
    goToPage i s =
      updateNavState
        { s with
            currentPage := i
            displayedImage := s.images.getD i.toNat ""
            pageLabel := i + 1
            activeDot := i } := by
  unfold goToPage
  rw [if_neg hi]

end ImageGallery

open ImageGallery in
/-- C3: Paged Gallery navigation — for an open gallery state satisfying the
invariant `0 ≤ currentPage < length` whose nav buttons reflect the
boundaries, `goToPage` with an out-of-range index is a no-op, `nextPage` at
the last page and `prevPage` at page 0 are no-ops, and every navigation
operation preserves the invariant, leaves the image list unchanged, and
leaves the prev/next buttons disabled exactly at `currentPage = 0` and
`currentPage = length - 1` respectively. -/
theorem imageGallery_navigation (s : GalleryState)
    (h0 : 0 ≤ s.currentPage) (h1 : s.currentPage < (s.images.length : Int))
    (hp : s.prevDisabled = (s.currentPage == 0))
    (hn : s.nextDisabled = (s.currentPage == (s.images.length : Int) - 1)) :
    (∀ i : Int, i < 0 ∨ (s.images.length : Int) ≤ i → goToPage i s = s) ∧
    (s.currentPage = (s.images.length : Int) - 1 → nextPage s = s) ∧
    (s.currentPage = 0 → prevPage s = s) ∧
    (∀ i : Int,
      0 ≤ (goToPage i s).currentPage ∧
      (goToPage i s).currentPage < (s.images.length : Int) ∧
      (goToPage i s).images = s.images ∧
      ((goToPage i s).prevDisabled = true ↔ (goToPage i s).currentPage = 0) ∧
      ((goToPage i s).nextDisabled = true ↔
        (goToPage i s).currentPage = (s.images.length : Int) - 1)) ∧
    (0 ≤ (prevPage s).currentPage ∧ (prevPage s).currentPage < (s.images.length : Int) ∧
      (prevPage s).images = s.images) ∧
    (0 ≤ (nextPage s).currentPage ∧ (nextPage s).currentPage < (s.images.length : Int) ∧
      (nextPage s).images = s.images) := by
  have hnav : ∀ i : Int,
      0 ≤ (goToPage i s).currentPage ∧
      (goToPage i s).currentPage < (s.images.length : Int) ∧
      (goToPage i s).images = s.images ∧
      ((goToPage i s).prevDisabled = true ↔ (goToPage i s).currentPage = 0) ∧
      ((goToPage i s).nextDisabled = true ↔
        (goToPage i s).currentPage = (s.images.length : Int) - 1) := by
    intro i
    by_cases hi : i < 0 ∨ (s.images.length : Int) ≤ i
    · rw [goToPage_out s i hi]
      refine ⟨h0, h1, rfl, ?_, ?_⟩
      · rw [hp]; exact beq_iff_eq
      · rw [hn]; exact beq_iff_eq
    · rw [goToPage_in s i hi]
      push_neg at hi
      refine ⟨by exact hi.1, by exact hi.2, rfl, ?_, ?_⟩
      · show (i == 0) = true ↔ i = 0
        exact beq_iff_eq
      · show (i == (s.images.length : Int) - 1) = true ↔ i = (s.images.length : Int) - 1
        exact beq_iff_eq
  refine ⟨fun i hi => goToPage_out s i hi, ?_, ?_, hnav, ?_, ?_⟩
  · intro hlast
    unfold nextPage
    rw [if_neg (by omega)]
  · intro hfirst
    unfold prevPage
    rw [if_neg (by omega)]
  · unfold prevPage
    by_cases h : 0 < s.currentPage
    · rw [if_pos h]
      exact ⟨(hnav _).1, (hnav _).2.1, (hnav _).2.2.1⟩
    · rw [if_neg h]
      exact ⟨h0, h1, rfl⟩
  · unfold nextPage
    by_cases h : s.currentPage < (s.images.length : Int) - 1
    · rw [if_pos h]
      exact ⟨(hnav _).1, (hnav _).2.1, (hnav _).2.2.1⟩
    · rw [if_neg h]
      exact ⟨h0, h1, rfl⟩

open ImageGallery in
/-- Witness for C3 at a concrete open three-image gallery on page 1. -/
theorem imageGallery_navigation_witness :
    goToPage 5 ⟨true, 1, ["a", "b", "c"], "Pamphlet", true, "b", 2, 1, false, false, true, []⟩ =
      ⟨true, 1, ["a", "b", "c"], "Pamphlet", true, "b", 2, 1, false, false, true, []⟩ ∧
    (nextPage ⟨true, 1, ["a", "b", "c"], "Pamphlet", true, "b", 2, 1, false, false, true, []⟩).currentPage <
      ((["a", "b", "c"] : List String).length : Int) :=
  ⟨(imageGallery_navigation
      ⟨true, 1, ["a", "b", "c"], "Pamphlet", true, "b", 2, 1, false, false, true, []⟩
      (by decide) (by decide) (by decide) (by decide)).1 5 (by decide),
   (imageGallery_navigation
      ⟨true, 1, ["a", "b", "c"], "Pamphlet", true, "b", 2, 1, false, false, true, []⟩
      (by decide) (by decide) (by decide) (by decide)).2.2.2.2.2.2.1⟩

open ImageGallery in
/-- C8 counterexample: opening with an empty image list does NOT leave the
gallery state unchanged — on a closed gallery that still holds the fields
of a previously shown gallery, `open` first stages `images`, `title` and
`currentPage` from the options and only then hits the empty-list guard, so
those fields (and the warning log) change. -/
theorem imageGallery_open_cex :
    openGallery ⟨[], none⟩
        ⟨false, 1, ["page1.png", "page2.png"], "Old", false, "page2.png", 2, 1,
          false, true, false, []⟩ ≠
      ⟨false, 1, ["page1.png", "page2.png"], "Old", false, "page2.png", 2, 1,
        false, true, false, []⟩ := by
  decide

open ImageGallery in
/-- C8 (amended): `open` is a no-op when the gallery is already open; when
the gallery is closed and the image list is empty it logs a warning,
creates no overlay, keeps the gallery closed and throws no error — but the
staged `images`, `title` and `currentPage` fields are overwritten from the
options before the empty-list guard runs. -/
theorem imageGallery_open_reject (o : GalleryOptions) (s : GalleryState) :
    (s.isOpen = true → openGallery o s = s) ∧
    (s.isOpen = false → o.images = [] →
      (openGallery o s).isOpen = false ∧
      (openGallery o s).containerExists = s.containerExists ∧
      (openGallery o s).bodyOverflowHidden = s.bodyOverflowHidden ∧
      (openGallery o s).displayedImage = s.displayedImage ∧
      (openGallery o s).warnings = s.warnings ++ ["ImageGallery: No images provided"] ∧
      (openGallery o s).images = [] ∧
      (openGallery o s).currentPage = 0 ∧
      (openGallery o s).title = StorySettings.jsOrDefault o.title "Gallery") := by
  constructor
  · intro h
    unfold openGallery
    rw [if_pos h]
  · intro h he
    have e : openGallery o s =
        { s with
            images := o.images
            title := StorySettings.jsOrDefault o.title "Gallery"
            currentPage := 0
            warnings := s.warnings ++ ["ImageGallery: No images provided"] } := by
      unfold openGallery
      rw [if_neg (by rw [h]; exact Bool.false_ne_true), he]
      rfl
    rw [e, he]
    exact ⟨h, rfl, rfl, rfl, rfl, rfl, rfl, rfl⟩

open ImageGallery in
/-- Witness for C8 (amended): a no-op on an already-open gallery, and the
warning-with-no-overlay outcome on a closed gallery given no images. -/
theorem imageGallery_open_reject_witness :
    openGallery ⟨["x.png"], some "New"⟩
        ⟨true, 0, ["a"], "T", true, "a", 1, 0, true, true, true, []⟩ =
      ⟨true, 0, ["a"], "T", true, "a", 1, 0, true, true, true, []⟩ ∧
    (openGallery ⟨[], none⟩ ⟨false, 0, ["a"], "T", false, "", 1, 0, true, true, false, []⟩).isOpen =
      false ∧
    (openGallery ⟨[], none⟩ ⟨false, 0, ["a"], "T", false, "", 1, 0, true, true, false, []⟩).warnings =
      [] ++ ["ImageGallery: No images provided"] :=
  ⟨(imageGallery_open_reject ⟨["x.png"], some "New"⟩
      ⟨true, 0, ["a"], "T", true, "a", 1, 0, true, true, true, []⟩).1 rfl,
   ((imageGallery_open_reject ⟨[], none⟩
      ⟨false, 0, ["a"], "T", false, "", 1, 0, true, true, false, []⟩).2 rfl rfl).1,
   ((imageGallery_open_reject ⟨[], none⟩
      ⟨false, 0, ["a"], "T", false, "", 1, 0, true, true, false, []⟩).2 rfl rfl).2.2.2.2.1⟩

-- ============================================================
-- Helper lemmas and claim theorems: sequence popups
-- ============================================================

namespace SequencePopups

/-- After k advances (k strictly below the number of items), the presenter
is active at index k, items 0..k have been rendered once each in order, and
the completion callback has not run. -/
lemma advanceN_lt (items : List SeqItem) (k : Nat) (hk : k < items.length) :
    advanceN k (init items true) =
      { items := items
        currentIndex := k
        isActive := true
        containerExists := true
        backdropVisible := true
        renders := List.range (k + 1)
        onCompleteCalls := 0
        hasOnComplete := true } := by
  induction k with
  | zero =>
      obtain ⟨a, l, rfl⟩ : ∃ a l, items = a :: l := by
        cases items with
        | nil => exact absurd hk (by simp)
        | cons a l => exact ⟨a, l, rfl⟩
      rfl
  | succ k ih =>
      have hk' : k < items.length := Nat.lt_of_succ_lt hk
      show advance (advanceN k (init items true)) = _
      rw [ih hk']
      have hget : items.get? (k + 1) = some (items.get ⟨k + 1, hk⟩) :=
        List.get?_eq_get hk
      unfold advance next showCurrentPopup
      rw [if_pos rfl]
      simp only []
      rw [if_pos (by simpa using hk)]
      rw [hget]
      simp [List.range_succ]

end SequencePopups

open SequencePopups in
/-- C2: Sequential Presenter — for every non-empty list of N items,
starting the sequence and then advancing N times renders exactly the
indices 0 through N-1, once each and in order, and invokes the completion
callback exactly once, only after the N-th advance, never before. -/
theorem sequencePopups_advance_completion (items : List SeqItem) (hne : items ≠ []) :
    (advanceN items.length (init items true)).renders = List.range items.length ∧
    (advanceN items.length (init items true)).onCompleteCalls = 1 ∧
    (advanceN items.length (init items true)).isActive = false ∧
    (∀ k, k < items.length → (advanceN k (init items true)).onCompleteCalls = 0) := by
  obtain ⟨m, hm⟩ : ∃ m, items.length = m + 1 := by
    cases hl : items.length with
    | zero => exact absurd (List.length_eq_zero.mp hl) hne
    | succ m => exact ⟨m, rfl⟩
  have hmlt : m < items.length := by omega
  have efin : advanceN items.length (init items true) =
      complete
        { items := items
          currentIndex := m + 1
          isActive := true
          containerExists := true
          backdropVisible := true
          renders := List.range (m + 1)
          onCompleteCalls := 0
          hasOnComplete := true } := by
    rw [hm]
    show advance (advanceN m (init items true)) = _
    rw [advanceN_lt items m hmlt]
    unfold advance next
    rw [if_pos rfl]
    simp only []
    rw [if_neg (by omega)]
  refine ⟨?_, ?_, ?_, ?_⟩
  · rw [efin, hm]; rfl
  · rw [efin]; rfl
  · rw [efin]; rfl
  · intro k hk
    rw [advanceN_lt items k hk]

open SequencePopups in
/-- Witness for C2 with a concrete two-item sequence. -/
theorem sequencePopups_advance_completion_witness :
    (advanceN ([⟨SeqItemType.image, "intro.png"⟩, ⟨SeqItemType.html, "halt"⟩] : List SeqItem).length
        (init [⟨SeqItemType.image, "intro.png"⟩, ⟨SeqItemType.html, "halt"⟩] true)).renders =
      List.range ([⟨SeqItemType.image, "intro.png"⟩, ⟨SeqItemType.html, "halt"⟩] : List SeqItem).length ∧
    (advanceN ([⟨SeqItemType.image, "intro.png"⟩, ⟨SeqItemType.html, "halt"⟩] : List SeqItem).length
        (init [⟨SeqItemType.image, "intro.png"⟩, ⟨SeqItemType.html, "halt"⟩] true)).onCompleteCalls = 1 :=
  ⟨(sequencePopups_advance_completion
      [⟨SeqItemType.image, "intro.png"⟩, ⟨SeqItemType.html, "halt"⟩] (by decide)).1,
   (sequencePopups_advance_completion
      [⟨SeqItemType.image, "intro.png"⟩, ⟨SeqItemType.html, "halt"⟩] (by decide)).2.1⟩

open SequencePopups in
/-- C10: Sequential Presenter empty-list edge case — starting with an empty
items list does not fail: it renders nothing, immediately completes,
invokes the completion callback exactly once, and leaves the presenter
inactive with its container destroyed and the backdrop hidden. -/
theorem sequencePopups_empty_items :
    (init ([] : List SeqItem) true).renders = [] ∧
    (init ([] : List SeqItem) true).onCompleteCalls = 1 ∧
    (init ([] : List SeqItem) true).isActive = false ∧
    (init ([] : List SeqItem) true).containerExists = false ∧
    (init ([] : List SeqItem) true).backdropVisible = false :=
  ⟨rfl, rfl, rfl, rfl, rfl⟩

-- ============================================================
-- Helper lemmas: system popups
-- ============================================================

namespace SystemPopups

/-- Structural invariant of the system-popup machine: the number of popup
elements in the DOM matches whether a popup is current, and the
`isShowingPopup` flag matches as well. -/
def SysInv (s : SysState) : Prop :=
  s.visible = (if s.currentPopup.isSome then 1 else 0) ∧
  s.isShowingPopup = s.currentPopup.isSome

lemma sysInv_initState : SysInv initState := ⟨rfl, rfl⟩

lemma showNextPopup_nil (s : SysState) (hq : s.queue = []) :
    showNextPopup s = { s with isShowingPopup := false } := by
  unfold showNextPopup
  rw [hq]

lemma showNextPopup_cons (s : SysState) (d : PopupData) (rest : List PopupData)
    (hq : s.queue = d :: rest) :
    showNextPopup s =
      { s with
          isShowingPopup := true
          queue := rest
          currentPopup := some d
          shown := s.shown ++ [d]
          visible := s.visible + 1 } := by
  unfold showNextPopup
  rw [hq]

lemma handleEntry_consumed (env : Nat → PopupData) (m : Nat) (s : SysState)
    (hm : m ∈ s.consumed) : handleEntry env m s = s := by
  unfold handleEntry
  rw [if_pos hm]

lemma handleEntry_fresh_showing (env : Nat → PopupData) (m : Nat) (s : SysState)
    (hm : m ∉ s.consumed) (hs : s.isShowingPopup = true) :
    handleEntry env m s =
      { s with consumed := m :: s.consumed, queue := s.queue ++ [env m] } := by
  unfold handleEntry
  rw [if_neg hm]
  have hs' : ({ s with consumed := m :: s.consumed, queue := s.queue ++ [env m] } :
      SysState).isShowingPopup = true := hs
  rw [if_pos hs']

lemma handleEntry_fresh_idle (env : Nat → PopupData) (m : Nat) (s : SysState)
    (hm : m ∉ s.consumed) (hs : s.isShowingPopup = false) :
    handleEntry env m s =
      showNextPopup { s with consumed := m :: s.consumed, queue := s.queue ++ [env m] } := by
  unfold handleEntry
  rw [if_neg hm]
  have hs' : ¬ ({ s with consumed := m :: s.consumed, queue := s.queue ++ [env m] } :
      SysState).isShowingPopup = true := by
    show ¬ s.isShowingPopup = true
    rw [hs]
    exact Bool.false_ne_true
  rw [if_neg hs']

lemma sysInv_showNextPopup_ready (s : SysState) (hcur : s.currentPopup = none)
    (hv : s.visible = 0) : SysInv (showNextPopup s) := by
  cases hq : s.queue with
  | nil =>
      rw [showNextPopup_nil s hq]
      exact ⟨by show s.visible = _; rw [hv, hcur]; rfl, by show false = _; rw [hcur]; rfl⟩
  | cons d rest =>
      rw [showNextPopup_cons s d rest hq]
      exact ⟨by show s.visible + 1 = _; rw [hv]; rfl, rfl⟩

lemma sysInv_handleEntry (env : Nat → PopupData) (m : Nat) (s : SysState)
    (h : SysInv s) : SysInv (handleEntry env m s) := by
  by_cases hm : m ∈ s.consumed
  · rw [handleEntry_consumed env m s hm]; exact h
  · cases hs : s.isShowingPopup with
    | true =>
        rw [handleEntry_fresh_showing env m s hm hs]
        exact h
    | false =>
        rw [handleEntry_fresh_idle env m s hm hs]
        have hnone : s.currentPopup = none := by
          have h2 : s.currentPopup.isSome = false := hs ▸ h.2.symm
          exact Option.not_isSome_iff_eq_none.mp (by rw [h2]; exact Bool.false_ne_true)
        have hv : s.visible = 0 := by rw [h.1, hnone]; rfl
        exact sysInv_showNextPopup_ready _ hnone hv

lemma sysInv_dismiss (s : SysState) (h : SysInv s) : SysInv (dismiss s) := by
  unfold dismiss
  by_cases hc : (s.isShowingPopup && s.currentPopup.isSome) = true
  · rw [if_pos hc]
    have hc' : s.isShowingPopup = true ∧ s.currentPopup.isSome = true := by simpa using hc
    obtain ⟨d, hd⟩ := Option.isSome_iff_exists.mp hc'.2
    have hv : s.visible = 1 := by rw [h.1, hd]; rfl
    unfold closeCurrentPopup
    rw [hd]
    show SysInv (showNextPopup { s with currentPopup := none, visible := s.visible - 1 })
    exact sysInv_showNextPopup_ready _ rfl (by show s.visible - 1 = 0; rw [hv])
  · rw [if_neg hc]; exact h

lemma sysInv_handleIntersection (env : Nat → PopupData) :
    ∀ (entries : List Nat) (s : SysState), SysInv s →
      SysInv (handleIntersection env s entries) := by
  intro entries
  induction entries with
  | nil => intro s h; exact h
  | cons m rest ih =>
      intro s h
      show SysInv (handleIntersection env (handleEntry env m s) rest)
      exact ih _ (sysInv_handleEntry env m s h)

lemma sysInv_dismissN : ∀ (k : Nat) (s : SysState), SysInv s → SysInv (dismissN k s) := by
  intro k
  induction k with
  | zero => intro s h; exact h
  | succ k ih =>
      intro s h
      show SysInv (dismissN k (dismiss s))
      exact ih _ (sysInv_dismiss s h)

lemma visible_le_one_of_sysInv (s : SysState) (h : SysInv s) : s.visible ≤ 1 := by
  rw [h.1]
  split <;> decide

/-- Draining lemma: from a state presenting `d` with queue `q`, `q.length + 1`
dismissals present all of `q` in order and return the machine to idle. -/
lemma drain (q : List PopupData) : ∀ (c : List Nat) (d : PopupData) (h : List PopupData),
    dismissN (q.length + 1) ⟨c, q, true, some d, h, 1⟩ = ⟨c, [], false, none, h ++ q, 0⟩ := by
  induction q with
  | nil =>
      intro c d h
      show dismissN 0 (dismiss ⟨c, [], true, some d, h, 1⟩) = _
      simp [dismissN, dismiss, closeCurrentPopup, showNextPopup]
  | cons a q' ih =>
      intro c d h
      show dismissN (q'.length + 1) (dismiss ⟨c, a :: q', true, some d, h, 1⟩) = _
      have e : dismiss ⟨c, a :: q', true, some d, h, 1⟩ = ⟨c, q', true, some a, h ++ [a], 1⟩ := by
        simp [dismiss, closeCurrentPopup, showNextPopup]
      rw [e, ih c a (h ++ [a])]
      simp

/-- Filling lemma: while a popup is showing, fresh distinct markers only
set their consumed flags and append their descriptors to the queue. -/
lemma fill (env : Nat → PopupData) : ∀ (ms : List Nat) (s : SysState),
    s.isShowingPopup = true → (∀ m ∈ ms, m ∉ s.consumed) → ms.Nodup →
    handleIntersection env s ms =
      { s with consumed := ms.reverse ++ s.consumed, queue := s.queue ++ ms.map env } := by
  intro ms
  induction ms with
  | nil => intro s _ _ _; simp [handleIntersection]
  | cons m rest ih =>
      intro s hs hfresh hnd
      have hm : m ∉ s.consumed := hfresh m (List.mem_cons_self m rest)
      have e1 : handleIntersection env s (m :: rest) =
          handleIntersection env
            { s with consumed := m :: s.consumed, queue := s.queue ++ [env m] } rest := by
        rw [show handleIntersection env s (m :: rest) =
              handleIntersection env (handleEntry env m s) rest from rfl,
            handleEntry_fresh_showing env m s hm hs]
      have hs1 : ({ s with consumed := m :: s.consumed, queue := s.queue ++ [env m] } :
          SysState).isShowingPopup = true := hs
      have hfresh1 : ∀ m' ∈ rest,
          m' ∉ ({ s with consumed := m :: s.consumed, queue := s.queue ++ [env m] } :
            SysState).consumed := by
        intro m' hm' hmem
        rcases List.mem_cons.mp hmem with h' | h'
        · exact (List.nodup_cons.mp hnd).1 (h' ▸ hm')
        · exact hfresh m' (List.mem_cons_of_mem m hm') h'
      have hnd1 : rest.Nodup := (List.nodup_cons.mp hnd).2
      rw [e1, ih _ hs1 hfresh1 hnd1]
      simp

end SystemPopups

open SystemPopups in
/-- C1: Triggered Queue — for every sequence of distinct marker-band-entry
events processed from the initial state before any dismissal, at most one
popup is visible after every prefix of the entries and after every number
of dismissals; after exactly as many dismissals as markers, the descriptors
of all markers have been presented in arrival (FIFO) order and nothing is
left visible; and a marker whose consumed flag is already set never
enqueues a second descriptor. -/
theorem systemPopups_triggered_queue (env : Nat → PopupData) (ms : List Nat)
    (hnd : ms.Nodup) :
    (∀ k, (handleIntersection env initState (ms.take k)).visible ≤ 1) ∧
    (∀ j, (dismissN j (handleIntersection env initState ms)).visible ≤ 1) ∧
    (dismissN ms.length (handleIntersection env initState ms)).shown = ms.map env ∧
    (dismissN ms.length (handleIntersection env initState ms)).visible = 0 ∧
    (∀ (m : Nat) (s : SysState), m ∈ s.consumed → handleEntry env m s = s) := by
  have hdrained : dismissN ms.length (handleIntersection env initState ms) =
      (match ms with
       | [] => initState
       | m0 :: rest =>
          ⟨rest.reverse ++ [m0], [], false, none, env m0 :: rest.map env, 0⟩) := by
    cases ms with
    | nil => rfl
    | cons m0 rest =>
        have hm0 : m0 ∉ initState.consumed := List.not_mem_nil m0
        have e0 : handleEntry env m0 initState =
            ⟨[m0], [], true, some (env m0), [env m0], 1⟩ := by
          rw [handleEntry_fresh_idle env m0 initState hm0 rfl]
          rw [showNextPopup_cons _ (env m0) [] rfl]
          rfl
        have e1 : handleIntersection env initState (m0 :: rest) =
            handleIntersection env (⟨[m0], [], true, some (env m0), [env m0], 1⟩ : SysState)
              rest := by
          rw [show handleIntersection env initState (m0 :: rest) =
                handleIntersection env (handleEntry env m0 initState) rest from rfl, e0]
        have hm0r : m0 ∉ rest := (List.nodup_cons.mp hnd).1
        have hfresh : ∀ m' ∈ rest,
            m' ∉ ((⟨[m0], [], true, some (env m0), [env m0], 1⟩ : SysState)).consumed := by
          intro m' hm' hmem
          have : m' = m0 := by simpa using hmem
          exact hm0r (this ▸ hm')
        have e2 : handleIntersection env initState (m0 :: rest) =
            ⟨rest.reverse ++ [m0], rest.map env, true, some (env m0), [env m0], 1⟩ := by
          rw [e1, fill env rest _ rfl hfresh (List.nodup_cons.mp hnd).2]
          rfl
        have hlen : (m0 :: rest).length = (rest.map env).length + 1 := by simp
        rw [e2, hlen, drain (rest.map env) (rest.reverse ++ [m0]) (env m0) [env m0]]
        rfl
  have hinv0 : SysInv (handleIntersection env initState ms) :=
    sysInv_handleIntersection env ms initState sysInv_initState
  refine ⟨?_, ?_, ?_, ?_, fun m s hm => handleEntry_consumed env m s hm⟩
  · intro k
    exact visible_le_one_of_sysInv _
      (sysInv_handleIntersection env (ms.take k) initState sysInv_initState)
  · intro j
    exact visible_le_one_of_sysInv _ (sysInv_dismissN j _ hinv0)
  · rw [hdrained]
    cases ms with
    | nil => rfl
    | cons m0 rest => rfl
  · rw [hdrained]
    cases ms with
    | nil => rfl
    | cons m0 rest => rfl

open SystemPopups in
/-- Witness for C1 with three distinct markers carrying concrete
descriptors. -/
theorem systemPopups_triggered_queue_witness :
    ([3, 7, 9] : List Nat).Nodup ∧
    (dismissN ([3, 7, 9] : List Nat).length
        (handleIntersection (fun n => ⟨some (toString n), none, false⟩) initState [3, 7, 9])).shown =
      ([3, 7, 9] : List Nat).map (fun n => (⟨some (toString n), none, false⟩ : PopupData)) ∧
    (dismissN ([3, 7, 9] : List Nat).length
        (handleIntersection (fun n => ⟨some (toString n), none, false⟩) initState [3, 7, 9])).visible = 0 :=
  ⟨by decide,
   (systemPopups_triggered_queue (fun n => ⟨some (toString n), none, false⟩) [3, 7, 9]
      (by decide)).2.2.1,
   (systemPopups_triggered_queue (fun n => ⟨some (toString n), none, false⟩) [3, 7, 9]
      (by decide)).2.2.2.1⟩
